import Mathlib

set_option maxRecDepth 8000

/-!
Verification development for the Document Extractor service (src/main.py).

Python strings are modelled as lists of Unicode codepoints (`PyStr`), so
that values such as lone surrogates produced by json string escapes stay
representable.  Uploaded byte content is modelled as a list of naturals
below 256.  Fallible Python code is modelled with `Option` / `Except`.
-/

/-- A Python string: a sequence of Unicode codepoints. -/
abbrev PyStr := List Nat

/-- Codepoints of a Lean string literal, used to write concrete inputs. -/
def pyOfString (s : String) : PyStr := s.data.map Char.toNat

/-- Python whitespace (the set for which CPython `Py_UNICODE_ISSPACE` holds):
this is the character class of both `str.strip()` and the regex class `\s`
on text patterns. -/
def isPyWs (c : Nat) : Bool :=
  (9 ≤ c && c ≤ 13) || (28 ≤ c && c ≤ 31) || c == 32 || c == 133 || c == 160 ||
  c == 5760 || (8192 ≤ c && c ≤ 8202) || c == 8232 || c == 8233 || c == 8239 ||
  c == 8287 || c == 12288

/-! ## JSON values and the `json.loads` scanner

`json.loads` is embedded as a recursive-descent scanner that mirrors the
CPython `json` scanner (the default C scanner): same literals, the same
number regex with maximal munch, strict strings rejecting raw control
characters, surrogate-pair combination in escapes, objects built with
last-value-wins for duplicate keys, and rejection of trailing data. -/

/-- JSON values as produced by Python `json.loads`.  Python floats are kept
as their source literal token (their numeric value is never inspected by
the program under verification); `NaN`, `Infinity` and `-Infinity`, which
Python json accepts, receive their own constructors. -/
inductive JVal where
  | jnull
  | jbool (b : Bool)
  | jint (n : Int)
  | jfloat (lit : PyStr)
  | jnan
  | jinf (neg : Bool)
  | jstr (s : PyStr)
  | jarr (items : List JVal)
  | jobj (entries : List (PyStr × JVal))

/-- JSON interelement whitespace: space, tab, line feed, carriage return. -/
def isJsonWs (c : Nat) : Bool := c == 32 || c == 9 || c == 10 || c == 13

def skipJsonWs (s : PyStr) : PyStr := s.dropWhile isJsonWs

def isDigitCp (c : Nat) : Bool := 48 ≤ c && c ≤ 57

def digitsToNat (ds : PyStr) : Nat := ds.foldl (fun a d => 10 * a + (d - 48)) 0

/-- Hex digit value of a codepoint; only [0-9a-fA-F], as the json scanner. -/
def hexVal? (c : Nat) : Option Nat :=
  if 48 ≤ c && c ≤ 57 then some (c - 48)
  else if 97 ≤ c && c ≤ 102 then some (c - 87)
  else if 65 ≤ c && c ≤ 70 then some (c - 55)
  else none

/-- Four hex digits, as in a `\uXXXX` escape. -/
def hex4? : PyStr → Option (Nat × PyStr)
  | a :: b :: c :: d :: r =>
    match hexVal? a, hexVal? b, hexVal? c, hexVal? d with
    | some x, some y, some z, some w => some (4096 * x + 256 * y + 16 * z + w, r)
    | _, _, _, _ => none
  | _ => none

/-- Json string scanner, positioned after the opening quote.  Strict mode:
raw control characters below 0x20 are rejected.  A `\uXXXX` escape holding
a high surrogate combines with an immediately following low-surrogate
escape; otherwise the lone surrogate stays in the decoded string, exactly
as the CPython scanner behaves.  Fuel is consumed once per step and every
step consumes at least one input codepoint, so `length + 1` is ample. -/
def scanString : Nat → PyStr → Option (PyStr × PyStr)
  | 0, _ => none
  | _ + 1, [] => none
  | _ + 1, 34 :: rest => some ([], rest)
  | fuel + 1, 92 :: rest =>
    match rest with
    | [] => none
    | e :: r =>
      if e == 34 || e == 92 || e == 47 then
        (scanString fuel r).map (fun p => (e :: p.1, p.2))
      else if e == 98 then (scanString fuel r).map (fun p => (8 :: p.1, p.2))
      else if e == 102 then (scanString fuel r).map (fun p => (12 :: p.1, p.2))
      else if e == 110 then (scanString fuel r).map (fun p => (10 :: p.1, p.2))
      else if e == 114 then (scanString fuel r).map (fun p => (13 :: p.1, p.2))
      else if e == 116 then (scanString fuel r).map (fun p => (9 :: p.1, p.2))
      else if e == 117 then
        match hex4? r with
        | none => none
        | some (u, r2) =>
          if 55296 ≤ u && u ≤ 56319 then
            match r2 with
            | 92 :: 117 :: r3 =>
              match hex4? r3 with
              | none => none
              | some (u2, r4) =>
                if 56320 ≤ u2 && u2 ≤ 57343 then
                  (scanString fuel r4).map (fun p =>
                    ((65536 + (u - 55296) * 1024 + (u2 - 56320)) :: p.1, p.2))
                else (scanString fuel r2).map (fun p => (u :: p.1, p.2))
            | _ => (scanString fuel r2).map (fun p => (u :: p.1, p.2))
          else (scanString fuel r2).map (fun p => (u :: p.1, p.2))
      else none
  | fuel + 1, c :: rest =>
    if c < 32 then none
    else (scanString fuel rest).map (fun p => (c :: p.1, p.2))

/-- Scan the json number regex (-?(0|[1-9]\d*))(\.\d+)?([eE][-+]?\d+)? at
the head of the input, with the same maximal munch as the Python json
NUMBER_RE: a fraction part is taken only as a dot followed by at least one
digit, an exponent part only as e/E, an optional sign and at least one
digit.  Integer literals produce Python ints, the others floats. -/
def scanNumber (s : PyStr) : Option (JVal × PyStr) :=
  let negRest : Bool × PyStr := match s with | 45 :: r => (true, r) | _ => (false, s)
  let neg := negRest.1
  let s1 := negRest.2
  let ipart : Option (PyStr × PyStr) :=
    match s1 with
    | 48 :: r => some ([48], r)
    | c :: r =>
      if 49 ≤ c && c ≤ 57 then some (c :: r.takeWhile isDigitCp, r.dropWhile isDigitCp)
      else none
    | [] => none
  match ipart with
  | none => none
  | some (ids, r1) =>
    let fracRest : PyStr × PyStr :=
      match r1 with
      | 46 :: r2 =>
        let fds := r2.takeWhile isDigitCp
        if fds.isEmpty then ([], r1) else (46 :: fds, r2.dropWhile isDigitCp)
      | _ => ([], r1)
    let fpart := fracRest.1
    let rA := fracRest.2
    let expRest : PyStr × PyStr :=
      match rA with
      | e :: r3 =>
        if e == 101 || e == 69 then
          match r3 with
          | sgn :: r4 =>
            if sgn == 43 || sgn == 45 then
              let eds := r4.takeWhile isDigitCp
              if eds.isEmpty then ([], rA) else (e :: sgn :: eds, r4.dropWhile isDigitCp)
            else
              let eds := r3.takeWhile isDigitCp
              if eds.isEmpty then ([], rA) else (e :: eds, r3.dropWhile isDigitCp)
          | [] => ([], rA)
        else ([], rA)
      | [] => ([], rA)
    let epart := expRest.1
    let rest := expRest.2
    if fpart.isEmpty && epart.isEmpty then
      some (JVal.jint (if neg then -(digitsToNat ids : Int) else (digitsToNat ids : Int)), rest)
    else
      some (JVal.jfloat ((if neg then [45] else []) ++ ids ++ fpart ++ epart), rest)

/-- Python dict insertion while building an object literal: a repeated key
keeps its original position and takes the latest value. -/
def objInsert (entries : List (PyStr × JVal)) (k : PyStr) (v : JVal) :
    List (PyStr × JVal) :=
  if entries.any (fun e => e.1 == k) then
    entries.map (fun e => if e.1 == k then (k, v) else e)
  else entries ++ [(k, v)]

mutual

/-- Json value scanner, mirroring the CPython json scanner dispatch (string,
object, array, the three literals, NaN and signed Infinity, then numbers). -/
def scanValue : Nat → PyStr → Option (JVal × PyStr)
  | 0, _ => none
  | fuel + 1, s =>
    match s with
    | 34 :: rest => (scanString (rest.length + 1) rest).map (fun p => (JVal.jstr p.1, p.2))
    | 123 :: rest => scanObject fuel rest
    | 91 :: rest => scanArray fuel rest
    | 110 :: 117 :: 108 :: 108 :: rest => some (JVal.jnull, rest)
    | 116 :: 114 :: 117 :: 101 :: rest => some (JVal.jbool true, rest)
    | 102 :: 97 :: 108 :: 115 :: 101 :: rest => some (JVal.jbool false, rest)
    | 78 :: 97 :: 78 :: rest => some (JVal.jnan, rest)
    | 73 :: 110 :: 102 :: 105 :: 110 :: 105 :: 116 :: 121 :: rest =>
      some (JVal.jinf false, rest)
    | 45 :: 73 :: 110 :: 102 :: 105 :: 110 :: 105 :: 116 :: 121 :: rest =>
      some (JVal.jinf true, rest)
    | _ => scanNumber s

/-- Object scanner, positioned after the opening brace. -/
def scanObject : Nat → PyStr → Option (JVal × PyStr)
  | 0, _ => none
  | fuel + 1, s =>
    match skipJsonWs s with
    | 125 :: rest => some (JVal.jobj [], rest)
    | s1 => scanMembers fuel [] s1

/-- Object member loop, positioned at the double quote of the next key. -/
def scanMembers : Nat → List (PyStr × JVal) → PyStr → Option (JVal × PyStr)
  | 0, _, _ => none
  | fuel + 1, acc, s =>
    match s with
    | 34 :: rest =>
      match scanString (rest.length + 1) rest with
      | none => none
      | some (key, r1) =>
        match skipJsonWs r1 with
        | 58 :: r2 =>
          match scanValue fuel (skipJsonWs r2) with
          | none => none
          | some (v, r3) =>
            match skipJsonWs r3 with
            | 44 :: r4 => scanMembers fuel (objInsert acc key v) (skipJsonWs r4)
            | 125 :: r4 => some (JVal.jobj (objInsert acc key v), r4)
            | _ => none
        | _ => none
    | _ => none

/-- Array scanner, positioned after the opening bracket. -/
def scanArray : Nat → PyStr → Option (JVal × PyStr)
  | 0, _ => none
  | fuel + 1, s =>
    match skipJsonWs s with
    | 93 :: rest => some (JVal.jarr [], rest)
    | s1 => scanElems fuel [] s1

/-- Array element loop, positioned at the start of the next value. -/
def scanElems : Nat → List JVal → PyStr → Option (JVal × PyStr)
  | 0, _, _ => none
  | fuel + 1, acc, s =>
    match scanValue fuel s with
    | none => none
    | some (v, r1) =>
      match skipJsonWs r1 with
      | 44 :: r2 => scanElems fuel (acc ++ [v]) (skipJsonWs r2)
      | 93 :: r2 => some (JVal.jarr (acc ++ [v]), r2)
      | _ => none

end

/-- `json.loads` on a Python string: scan one value between optional
whitespace and reject trailing data; `none` is a `json.JSONDecodeError`.
The fuel is ample: the mutual scanners take at most three nested steps per
consumed input codepoint. -/
def json_loads (s : PyStr) : Option JVal :=
  match scanValue (4 * s.length + 8) (skipJsonWs s) with
  | none => none
  | some (v, rest) => if (skipJsonWs rest).isEmpty then some v else none

/-! ## The fenced-block search

src/main.py line 207 runs
  re.search of the pattern  three backticks, json, \s*, lazy group, \s*,
  three backticks  over the text, with DOTALL and IGNORECASE.
Specialised to this pattern, the Python engine behaves deterministically:
the match starts at the leftmost occurrence of the opening marker (three
backticks then json case-insensitively); the first greedy \s* absorbs the
maximal whitespace run after the marker; the lazy group then grows until
the first later occurrence of three consecutive backticks, with the second
greedy \s* giving back the whitespace immediately before that closing
marker.  If the first opening marker has no closing marker after it then
no later opening marker can exist either (an opening marker itself starts
with three backticks), so the whole search fails, matching re.search
returning None.  IGNORECASE folds ASCII letters and, per the CPython sre
equivalence table, also LATIN SMALL LETTER LONG S (U+017F) onto s. -/

def ciJ (c : Nat) : Bool := c == 106 || c == 74

def ciS (c : Nat) : Bool := c == 115 || c == 83 || c == 383

def ciO (c : Nat) : Bool := c == 111 || c == 79

def ciN (c : Nat) : Bool := c == 110 || c == 78

/-- Does the opening marker (three backticks then json, case-insensitive)
sit at the head of the input? -/
def isOpenAt (s : PyStr) : Bool :=
  match s with
  | t1 :: t2 :: t3 :: j :: sc :: oc :: nc :: _ =>
    t1 == 96 && t2 == 96 && t3 == 96 && ciJ j && ciS sc && ciO oc && ciN nc
  | _ => false

/-- Do three consecutive backticks sit at the head of the input? -/
def hasTicks3 (s : PyStr) : Bool :=
  match s with
  | 96 :: 96 :: 96 :: _ => true
  | _ => false

/-- The codepoints strictly before the first occurrence of three
consecutive backticks; `none` when there is no such occurrence. -/
def takeUntilTicks : PyStr → Option PyStr
  | [] => none
  | c :: rest =>
    if hasTicks3 (c :: rest) then some []
    else (takeUntilTicks rest).map (fun t => c :: t)

def dropLeadWs (s : PyStr) : PyStr := s.dropWhile isPyWs

def dropTrailWs (s : PyStr) : PyStr := (s.reverse.dropWhile isPyWs).reverse

/-- `re.search` of the fence pattern, returning group 1 (see the block
comment above for why this deterministic form is exactly the engine
behaviour on this pattern). -/
def fenceSearch : PyStr → Option PyStr
  | [] => none
  | c :: rest =>
    if isOpenAt (c :: rest) then
      match takeUntilTicks (dropLeadWs ((c :: rest).drop 7)) with
      | some content => some (dropTrailWs content)
      | none => none
    else fenceSearch rest

/-! ## The transform-to-json endpoint -/

/-- Request model of the endpoint (class TextInput). -/
structure TextInput where
  raw_text : PyStr

/-- The three ValueError messages raised by the validations in
transform_text_to_json (src/main.py lines 197, 201, 214). -/
inductive StructureMsg where
  | notAList
  | missingTextKey
  | noJsonBlock
deriving DecidableEq

/-- Failure classification of transform_text_to_json, as established by its
exception handlers: json.JSONDecodeError becomes HTTP 400 with an
"Erro ao decodificar JSON" detail, ValueError becomes HTTP 400 with an
"Erro na estrutura do input" detail, anything else becomes HTTP 500. -/
inductive TransformErr where
  | decodeErr
  | structureErr (m : StructureMsg)
  | unexpectedErr
deriving DecidableEq

/-- HTTP status code attached by the handlers in src/main.py lines 222-230. -/
def TransformErr.statusCode : TransformErr → Nat
  | .decodeErr => 400
  | .structureErr _ => 400
  | .unexpectedErr => 500

/-- The key "text". -/
def textKey : PyStr := [116, 101, 120, 116]

/-- Python dict lookup on the parsed object entries. -/
def dictGet (entries : List (PyStr × JVal)) (k : PyStr) : Option JVal :=
  (entries.find? (fun e => e.1 == k)).map (fun e => e.2)

/-- src/main.py transform_text_to_json (lines 184-230).  The non-string
case of the text value reproduces the TypeError raised by re.search when
given a non-string, which only the catch-all handler catches (HTTP 500).
The combined dict membership test and subscript of the source are one
lookup here; `none` is exactly "text" being absent. -/
def transform_text_to_json (payload : TextInput) : Except TransformErr JVal :=
  match json_loads payload.raw_text with
  | none => .error .decodeErr
  | some data_list =>
    match data_list with
    | .jarr (first_item :: _) =>
      match first_item with
      | .jobj entries =>
        match dictGet entries textKey with
        | none => .error (.structureErr .missingTextKey)
        | some tv =>
          match tv with
          | .jstr text_with_markdown =>
            match fenceSearch text_with_markdown with
            | none => .error (.structureErr .noJsonBlock)
            | some json_string =>
              match json_loads json_string with
              | none => .error .decodeErr
              | some final_json_data => .ok final_json_data
          | _ => .error .unexpectedErr
      | _ => .error (.structureErr .missingTextKey)
    | .jarr [] => .error (.structureErr .notAList)
    | _ => .error (.structureErr .notAList)

/-- Does a value validate against the response model Dict[str, Any]
declared on the route (src/main.py line 183)?  Every JSON object does —
the Any values are unconstrained and JSON object keys are always
strings — and nothing else. -/
def isDictStrAny : JVal → Bool
  | .jobj _ => true
  | _ => false

/-- Errors observable from the transform-to-json route as a whole: the
HTTPExceptions raised inside the handler, and the response-validation
failure raised by the framework when the returned value does not fit the
declared response model. -/
inductive RouteErr where
  | handler (e : TransformErr)
  | responseValidation
deriving DecidableEq

/-- The response-validation failure is an internal server error; handler
errors keep their own status. -/
def RouteErr.statusCode : RouteErr → Nat
  | .handler e => e.statusCode
  | .responseValidation => 500

/-- The transform-to-json route as served over HTTP: the handler outcome
(src/main.py lines 184-230) followed by the serialization of a successful
return value against the response_model Dict[str, Any] declared at line
183.  A non-dict return value fails that validation inside the framework,
outside the handler's own exception handlers, and surfaces as a server
error. -/
def transform_route (payload : TextInput) : Except RouteErr JVal :=
  match transform_text_to_json payload with
  | .error e => .error (.handler e)
  | .ok v => if isDictStrAny v then .ok v else .error .responseValidation

/-! ## SHA-256 (hashlib.sha256(...).hexdigest())

A full executable SHA-256 over byte lists, with 32-bit words as naturals
reduced modulo 2^32.  The round constants and the initial hash value are
derived, as in the standard, from the fractional parts of the cube and
square roots of the first primes, via exact integer root extraction. -/

/-- Force a natural to an evaluated numeral before continuing: semantically
the identity (see `natSeq_eq`), used so that concrete evaluation inside the
kernel carries numerals instead of growing unevaluated terms. -/
def natSeq (n : Nat) (k : Nat → α) : α :=
  match n with
  | 0 => k 0
  | m + 1 => k (m + 1)

/-- Bounded binary search maintaining lo^3 ≤ n < hi^3. -/
def icbrtAux (n : Nat) : Nat → Nat → Nat → Nat
  | 0, lo, _ => lo
  | fuel + 1, lo, hi =>
    if lo + 1 < hi then
      natSeq ((lo + hi) / 2) fun mid =>
        if mid * mid * mid ≤ n then icbrtAux n fuel mid hi else icbrtAux n fuel lo mid
    else lo

/-- Integer cube root: the largest m with m^3 ≤ n (for n below 2^200). -/
def icbrt (n : Nat) : Nat := icbrtAux n 200 0 (n + 1)

def primes64 : List Nat :=
  [2, 3, 5, 7, 11, 13, 17, 19, 23, 29, 31, 37, 41, 43, 47, 53,
   59, 61, 67, 71, 73, 79, 83, 89, 97, 101, 103, 107, 109, 113, 127, 131,
   137, 139, 149, 151, 157, 163, 167, 173, 179, 181, 191, 193, 197, 199, 211, 223,
   227, 229, 233, 239, 241, 251, 257, 263, 269, 271, 277, 281, 283, 293, 307, 311]

/-- The 64 round constants: first 32 bits of the fractional parts of the
cube roots of the first 64 primes. -/
def K256 : List Nat := primes64.map (fun p => icbrt (p * 2 ^ 96) % 2 ^ 32)

/-- Bounded binary search maintaining lo^2 ≤ n < hi^2. -/
def isqrtAux (n : Nat) : Nat → Nat → Nat → Nat
  | 0, lo, _ => lo
  | fuel + 1, lo, hi =>
    if lo + 1 < hi then
      natSeq ((lo + hi) / 2) fun mid =>
        if mid * mid ≤ n then isqrtAux n fuel mid hi else isqrtAux n fuel lo mid
    else lo

/-- Integer square root: the largest m with m^2 ≤ n (for n below 2^200). -/
def isqrtN (n : Nat) : Nat := isqrtAux n 200 0 (n + 1)

/-- Initial hash value: first 32 bits of the fractional parts of the square
roots of the first 8 primes. -/
def sha256init : List Nat := (primes64.take 8).map (fun p => isqrtN (p * 2 ^ 64) % 2 ^ 32)

def add32 (x y : Nat) : Nat := (x + y) % 4294967296

def xor32 (x y : Nat) : Nat := Nat.xor x y

def and32 (x y : Nat) : Nat := Nat.land x y

def not32 (x : Nat) : Nat := Nat.xor x 4294967295

def rotr32 (x k : Nat) : Nat := (x / 2 ^ k + x % 2 ^ k * 2 ^ (32 - k)) % 4294967296

def shr32 (x k : Nat) : Nat := x / 2 ^ k

def ch32 (x y z : Nat) : Nat := xor32 (and32 x y) (and32 (not32 x) z)

def maj32 (x y z : Nat) : Nat := xor32 (xor32 (and32 x y) (and32 x z)) (and32 y z)

def bigS0 (x : Nat) : Nat := xor32 (xor32 (rotr32 x 2) (rotr32 x 13)) (rotr32 x 22)

def bigS1 (x : Nat) : Nat := xor32 (xor32 (rotr32 x 6) (rotr32 x 11)) (rotr32 x 25)

def smallS0 (x : Nat) : Nat := xor32 (xor32 (rotr32 x 7) (rotr32 x 18)) (shr32 x 3)

def smallS1 (x : Nat) : Nat := xor32 (xor32 (rotr32 x 17) (rotr32 x 19)) (shr32 x 10)

/-- The eight working registers. -/
structure Sha256Regs where
  a : Nat
  b : Nat
  c : Nat
  d : Nat
  e : Nat
  f : Nat
  g : Nat
  h : Nat
deriving DecidableEq

def sha256IV : Sha256Regs :=
  ⟨sha256init.getD 0 0, sha256init.getD 1 0, sha256init.getD 2 0, sha256init.getD 3 0,
   sha256init.getD 4 0, sha256init.getD 5 0, sha256init.getD 6 0, sha256init.getD 7 0⟩

/-- Big-endian 4-byte split of a 32-bit word. -/
def wordBE (w : Nat) : List Nat :=
  [w / 2 ^ 24 % 256, w / 2 ^ 16 % 256, w / 2 ^ 8 % 256, w % 256]

/-- Big-endian 8-byte split of the 64-bit message bit length. -/
def be8bytes (n : Nat) : List Nat :=
  [n / 2 ^ 56 % 256, n / 2 ^ 48 % 256, n / 2 ^ 40 % 256, n / 2 ^ 32 % 256,
   n / 2 ^ 24 % 256, n / 2 ^ 16 % 256, n / 2 ^ 8 % 256, n % 256]

/-- Merkle-Damgard padding: 0x80, zeros to 56 mod 64, 8-byte bit length. -/
def sha256pad (m : List Nat) : List Nat :=
  m ++ [128] ++ List.replicate ((119 - m.length % 64) % 64) 0 ++ be8bytes (8 * m.length)

/-- Combine consecutive byte quadruples into big-endian 32-bit words. -/
def bytesToWords : List Nat → List Nat
  | a :: b :: c :: d :: rest => (a * 16777216 + b * 65536 + c * 256 + d) :: bytesToWords rest
  | _ => []

/-- Extend the 16 block words by 48 scheduled words. -/
def extendSchedule : Nat → List Nat → List Nat
  | 0, ws => ws
  | k + 1, ws =>
    natSeq (add32 (add32 (smallS1 (ws.getD (ws.length - 2) 0)) (ws.getD (ws.length - 7) 0))
        (add32 (smallS0 (ws.getD (ws.length - 15) 0)) (ws.getD (ws.length - 16) 0))) fun w =>
      extendSchedule k (ws ++ [w])

def sha256Round (r : Sha256Regs) (kw : Nat × Nat) : Sha256Regs :=
  natSeq (add32 r.h (add32 (bigS1 r.e) (add32 (ch32 r.e r.f r.g) (add32 kw.1 kw.2)))) fun t1 =>
  natSeq (add32 (bigS0 r.a) (maj32 r.a r.b r.c)) fun t2 =>
  natSeq (add32 t1 t2) fun a1 => natSeq r.a fun b1 => natSeq r.b fun c1 =>
  natSeq r.c fun d1 => natSeq (add32 r.d t1) fun e1 => natSeq r.e fun f1 =>
  natSeq r.f fun g1 => natSeq r.g fun h1 => ⟨a1, b1, c1, d1, e1, f1, g1, h1⟩

def compressBlock (st : Sha256Regs) (block : List Nat) : Sha256Regs :=
  let fin := (K256.zip (extendSchedule 48 (bytesToWords block))).foldl sha256Round st
  natSeq (add32 st.a fin.a) fun a1 => natSeq (add32 st.b fin.b) fun b1 =>
  natSeq (add32 st.c fin.c) fun c1 => natSeq (add32 st.d fin.d) fun d1 =>
  natSeq (add32 st.e fin.e) fun e1 => natSeq (add32 st.f fin.f) fun f1 =>
  natSeq (add32 st.g fin.g) fun g1 => natSeq (add32 st.h fin.h) fun h1 =>
  ⟨a1, b1, c1, d1, e1, f1, g1, h1⟩

/-- Split the padded message into 64-byte blocks (fuel covers the length). -/
def toBlocks : Nat → List Nat → List (List Nat)
  | 0, _ => []
  | _ + 1, [] => []
  | fuel + 1, l => l.take 64 :: toBlocks fuel (l.drop 64)

/-- SHA-256 digest (32 bytes) of a byte list. -/
def sha256 (m : List Nat) : List Nat :=
  let padded := sha256pad m
  let st := (toBlocks padded.length padded).foldl compressBlock sha256IV
  wordBE st.a ++ wordBE st.b ++ wordBE st.c ++ wordBE st.d ++
  wordBE st.e ++ wordBE st.f ++ wordBE st.g ++ wordBE st.h

/-- Lowercase hex digit, as Python "%02x" formatting uses. -/
def hexDigitChar (n : Nat) : Char :=
  if n < 10 then Char.ofNat (48 + n) else Char.ofNat (87 + n)

def hexByte (b : Nat) : List Char := [hexDigitChar (b / 16), hexDigitChar (b % 16)]

/-- bytes.hex() / hashlib hexdigest formatting of a byte list. -/
def hexdigest (bytes : List Nat) : String := ⟨(bytes.map hexByte).flatten⟩

/-- src/main.py calculate_file_hash (lines 37-39):
hashlib.sha256(content).hexdigest(). -/
def calculate_file_hash (content : List Nat) : String := hexdigest (sha256 content)

/-! ## The extraction endpoints

The two document parsers (the PDF and the slide-deck libraries) are
external; their outcome is abstracted as an optional parse-result
parameter, where `none` models the library raising on the given bytes and
the try/except of the source turning that into a client error.  The
datetime stamp is abstracted as a parameter `now`. -/

/-- Metadata mapping of a DocumentResponse; the shape depends on the file
type (the source builds a plain dict in each extractor). -/
inductive DocMetadata where
  | pdfMeta (num_pages : Nat) (pdf_metadata : List (String × String))
  | pptxMeta (num_slides : Nat) (slide_width slide_height : Option Int)
      (pptx_metadata : List (String × String))
deriving DecidableEq

/-- Response model (class DocumentResponse, src/main.py lines 24-31). -/
structure DocumentResponse where
  success : Bool
  filename : String
  file_type : String
  text_content : String
  metadata : DocMetadata
  extracted_at : String
  file_hash : String
deriving DecidableEq

/-- Error responses of the extraction path, all HTTPException status 400:
the four raises in src/main.py lines 82, 138, 165-168 and 174. -/
inductive ExtractErr where
  | unsupportedType
  | emptyFile
  | pdfProcessing
  | pptxProcessing
deriving DecidableEq

def ExtractErr.statusCode : ExtractErr → Nat
  | _ => 400

/-- Python str.strip() with no arguments: remove leading and trailing
Python whitespace. -/
def pyStrip (s : String) : String :=
  ⟨((s.data.dropWhile fun ch => isPyWs ch.toNat).reverse.dropWhile
      fun ch => isPyWs ch.toNat).reverse⟩

/-- A parsed PDF as the wrapped library presents it to extract_pdf: the
extracted text of each page in order, and the optional document
information mapping (`none` also stands for a present but empty mapping,
which is falsy in Python). -/
structure PdfDocument where
  pages : List String
  info : Option (List (String × String))

def lookupD (m : List (String × String)) (k d : String) : String :=
  ((m.find? fun e => e.1 == k).map fun e => e.2).getD d

/-- The pdf_metadata dict built in src/main.py lines 59-68. -/
def pdfMetaFields (info : Option (List (String × String))) : List (String × String) :=
  match info with
  | none => []
  | some m =>
    [("title", lookupD m "/Title" ""), ("author", lookupD m "/Author" ""),
     ("subject", lookupD m "/Subject" ""), ("creator", lookupD m "/Creator" ""),
     ("producer", lookupD m "/Producer" ""),
     ("creation_date", lookupD m "/CreationDate" ""),
     ("modification_date", lookupD m "/ModDate" "")]

/-- The page loop of src/main.py lines 49-51: page_num counts from 0 and
the displayed number is page_num + 1. -/
def pdfPagesText : Nat → List String → String
  | _, [] => ""
  | n, t :: rest =>
    "\n--- Página " ++ toString (n + 1) ++ " ---\n" ++ t ++ pdfPagesText (n + 1) rest

/-- src/main.py extract_pdf (lines 41-82). -/
def extract_pdf (parsed : Option PdfDocument) (file_content : List Nat)
    (filename : String) (now : String) : Except ExtractErr DocumentResponse :=
  match parsed with
  | none => .error .pdfProcessing
  | some doc =>
    .ok { success := true
          filename := filename
          file_type := "pdf"
          text_content := pyStrip (pdfPagesText 0 doc.pages)
          metadata := .pdfMeta doc.pages.length (pdfMetaFields doc.info)
          extracted_at := now
          file_hash := calculate_file_hash file_content }

/-- Core properties of a presentation; the two date fields are carried
already formatted (the isoformat output of the source). -/
structure PptxCore where
  title : Option String
  author : Option String
  subject : Option String
  keywords : Option String
  comments : Option String
  category : Option String
  created : Option String
  modified : Option String
  last_modified_by : Option String

/-- A parsed slide deck: per slide, the text of each shape in order
(`none` for a shape without a text attribute). -/
structure PptxDocument where
  slides : List (List (Option String))
  slide_width : Option Int
  slide_height : Option Int
  core : PptxCore

/-- The shape loop of src/main.py lines 97-99: only shapes with a text
attribute holding a truthy (nonempty) string contribute. -/
def slideShapesText (shapes : List (Option String)) : String :=
  shapes.foldl (fun acc sh =>
    match sh with
    | some t => if t = "" then acc else acc ++ t ++ "\n"
    | none => acc) ""

/-- The slide loop of src/main.py lines 94-102: slide_num counts from 1. -/
def pptxSlidesText : Nat → List (List (Option String)) → String
  | _, [] => ""
  | n, shapes :: rest =>
    "\n--- Slide " ++ toString n ++ " ---\n" ++ slideShapesText shapes ++
      pptxSlidesText (n + 1) rest

/-- The pptx_metadata dict of src/main.py lines 114-124 (the `or` fallback
and the conditional isoformat both default to the empty string). -/
def pptxMetaFields (core : PptxCore) : List (String × String) :=
  [("title", core.title.getD ""), ("author", core.author.getD ""),
   ("subject", core.subject.getD ""), ("keywords", core.keywords.getD ""),
   ("comments", core.comments.getD ""), ("category", core.category.getD ""),
   ("created", core.created.getD ""), ("modified", core.modified.getD ""),
   ("last_modified_by", core.last_modified_by.getD "")]

/-- src/main.py extract_pptx (lines 84-138). -/
def extract_pptx (parsed : Option PptxDocument) (file_content : List Nat)
    (filename : String) (now : String) : Except ExtractErr DocumentResponse :=
  match parsed with
  | none => .error .pptxProcessing
  | some doc =>
    .ok { success := true
          filename := filename
          file_type := "pptx"
          text_content := pyStrip (pptxSlidesText 1 doc.slides)
          metadata := .pptxMeta doc.slides.length doc.slide_width doc.slide_height
            (pptxMetaFields doc.core)
          extracted_at := now
          file_hash := calculate_file_hash file_content }

/-- Characterwise lowercasing of the filename (Python str.lower; on the
comparisons made here against pdf and pptx the ASCII folding of
Char.toLower decides identically, since no other codepoint lowercases
into those ASCII letters). -/
def strLower (s : String) : String := ⟨s.data.map Char.toLower⟩

/-- filename.lower().split(".")[-1]: the characters after the last dot, or
the whole string when it has no dot. -/
def lastSuffixSeg (s : String) : String :=
  ⟨s.data.foldl (fun acc ch => if ch = '.' then [] else acc ++ [ch]) []⟩

/-- src/main.py extract_document (lines 157-180): extension check, then
the empty-content check, then dispatch.  The final elif of the source is
exhaustive under the extension guard, so its else branch here is the
pptx call. -/
def extract_document (fn : String) (file_content : List Nat)
    (pdfParsed : Option PdfDocument) (pptxParsed : Option PptxDocument)
    (now : String) : Except ExtractErr DocumentResponse :=
  let file_extension := lastSuffixSeg (strLower fn)
  if file_extension ∉ (["pdf", "pptx"] : List String) then .error .unsupportedType
  else if file_content.length = 0 then .error .emptyFile
  else if file_extension = "pdf" then extract_pdf pdfParsed file_content fn now
  else extract_pptx pptxParsed file_content fn now

/-! ## Claims about the recovery operation -/

/-- First element of a parsed value when it is a non-empty list. -/
def jHead? : JVal → Option JVal
  | .jarr (x :: _) => some x
  | _ => none

/-- The text field of a parsed value when it is an object with that key. -/
def jTextField? : JVal → Option JVal
  | .jobj entries => dictGet entries textKey
  | _ => none

/-- The ordered failure chain of the recovery operation as the amended
claim C2 words it: decode error on an unparseable raw_text, structure
error when the value is not a non-empty list, structure error when the
first item is not an object with a text key, server error when the text
value is not a string, structure error when no fenced block is found,
decode error when the captured content is unparseable, success
otherwise. -/
def recoveryChain (raw : PyStr) : Except TransformErr JVal :=
  match json_loads raw with
  | none => .error .decodeErr
  | some outer =>
    match jHead? outer with
    | none => .error (.structureErr .notAList)
    | some first =>
      match jTextField? first with
      | none => .error (.structureErr .missingTextKey)
      | some (.jstr t) =>
        match fenceSearch t with
        | none => .error (.structureErr .noJsonBlock)
        | some g =>
          match json_loads g with
          | none => .error .decodeErr
          | some v => .ok v
      | some _ => .error .unexpectedErr


/-! ## Claim C3: only the first fenced block is honored -/

/-- The opening marker, in lowercase. -/
def fenceOpenMark : PyStr := [96, 96, 96, 106, 115, 111, 110]

/-- A closing marker: three backticks. -/
def ticks3 : PyStr := [96, 96, 96]

/-- Observer for the num_pages entry of the pdf metadata mapping. -/
def DocMetadata.numPages? : DocMetadata → Option Nat
  | .pdfMeta n _ => some n
  | _ => none


/-! ## Claims about the content hasher and the extract dispatch -/

def isLowerHexChar (ch : Char) : Bool :=
  (48 ≤ ch.toNat && ch.toNat ≤ 57) || (97 ≤ ch.toNat && ch.toNat ≤ 102)

/-! ## Theorems -/

theorem natSeq_eq (n : Nat) (k : Nat → α) : natSeq n k = k n := by
  cases n <;> rfl

/-! Scanner sanity checks against the behaviour of Python json.loads. -/

theorem json_loads_scalar_check : json_loads (pyOfString " 42 ") = some (JVal.jint 42) := by
  rfl

theorem json_loads_object_check :
    json_loads (pyOfString "\x7b\"a\": [1, true, null]\x7d") =
      some (JVal.jobj [([97], JVal.jarr [JVal.jint 1, JVal.jbool true, JVal.jnull])]) := by
  rfl

theorem json_loads_escape_check :
    json_loads (pyOfString "\"a\\n\\u0041\"") = some (JVal.jstr [97, 10, 65]) := by
  rfl

theorem json_loads_trailing_check : json_loads (pyOfString "1 2") = none := by rfl

theorem json_loads_leading_zero_check : json_loads (pyOfString "01") = none := by rfl

theorem json_loads_empty_check : json_loads (pyOfString "") = none := by rfl

/-! Fence search sanity checks. -/

theorem fenceSearch_basic_check :
    fenceSearch (pyOfString "a ```JSON  \x7b\x7d \n``` b") = some [123, 125] := by
  rfl

theorem fenceSearch_missing_check : fenceSearch (pyOfString "no fence") = none := by rfl

theorem fenceSearch_unclosed_check : fenceSearch (pyOfString "```json \x7b\x7d") = none := by
  rfl

/-! Validation of the embedding against the published SHA-256 test vectors
for the empty message and for "abc". -/


/-! Validation of the embedding against the published SHA-256 test vectors
for the empty message and for "abc". -/

set_option maxHeartbeats 1600000 in
theorem sha256_empty_vector :
    calculate_file_hash [] =
      "e3b0c44298fc1c149afbf4c8996fb92427ae41e4649b934ca495991b7852b855" := by
  decide

set_option maxHeartbeats 1600000 in
theorem sha256_abc_vector :
    calculate_file_hash (pyOfString "abc") =
      "ba7816bf8f01cfea414140de5dae2223b00361a396177a9cb410ff61f20015ad" := by
  decide

/-! Extension handling sanity checks. -/

theorem lastSuffixSeg_mixed_check : lastSuffixSeg (strLower "Deck.V2.PpTx") = "pptx" := by
  rfl

theorem lastSuffixSeg_nodot_check : lastSuffixSeg (strLower "PDF") = "pdf" := by rfl

theorem lastSuffixSeg_empty_seg_check : lastSuffixSeg (strLower "file.") = "" := by rfl

/-- Claim C1: on the happy-path input the recovery succeeds and returns
the object mapping a to 1 — the fence content is captured with the
surrounding newlines stripped and parsed as JSON. -/
theorem claim1_recovery_happy_path :
    transform_text_to_json
        ⟨pyOfString "[\x7b\"text\": \"prefix ```json\\n\x7b\\\"a\\\":1\x7d\\n``` suffix\"\x7d]"⟩ =
      Except.ok (JVal.jobj [(pyOfString "a", JVal.jint 1)]) := by
  rfl

/-- Claim C2, counterexample: on the input list whose first item maps text
to the number 5, the code reaches re.search with a non-string, whose
TypeError lands in the catch-all handler: an HTTP 500 server error, while
the claimed chain calls for a (client) structure error. -/
theorem claim2_counterexample :
    transform_text_to_json ⟨pyOfString "[\x7b\"text\": 5\x7d]"⟩ =
        Except.error TransformErr.unexpectedErr
      ∧ TransformErr.unexpectedErr.statusCode = 500
      ∧ (TransformErr.structureErr StructureMsg.noJsonBlock).statusCode = 400
      ∧ TransformErr.unexpectedErr ≠ TransformErr.structureErr StructureMsg.noJsonBlock :=
  ⟨rfl, rfl, rfl, by decide⟩

/-- Claim C2 as amended: for every raw_text the operation follows the
ordered failure chain, with the added case that a non-string text value
fails with a server error; decode and structure errors are client errors
(status 400) and the unexpected failure is a server error (status 500). -/
theorem claim2_amended_failure_chain :
    (∀ raw : PyStr, transform_text_to_json ⟨raw⟩ = recoveryChain raw)
    ∧ TransformErr.decodeErr.statusCode = 400
    ∧ (∀ m : StructureMsg, (TransformErr.structureErr m).statusCode = 400)
    ∧ TransformErr.unexpectedErr.statusCode = 500 := by
  refine ⟨fun raw => ?_, rfl, fun m => rfl, rfl⟩
  unfold transform_text_to_json recoveryChain
  cases hj : json_loads raw with
  | none => rfl
  | some v =>
    cases v with
    | jarr items =>
      cases items with
      | nil => rfl
      | cons first rest =>
        cases first with
        | jobj entries =>
          simp only [jHead?, jTextField?]
          cases hd : dictGet entries textKey with
          | none => rfl
          | some tv => cases tv <;> rfl
        | jnull => rfl
        | jbool b => rfl
        | jint n => rfl
        | jfloat l => rfl
        | jnan => rfl
        | jinf ng => rfl
        | jstr s => rfl
        | jarr i => rfl
    | jnull => rfl
    | jbool b => rfl
    | jint n => rfl
    | jfloat l => rfl
    | jnan => rfl
    | jinf ng => rfl
    | jstr s => rfl
    | jobj es => rfl

/-- Helper: whenever the recovery chain succeeds, the handler function
itself returns the recovered value unchanged, whatever JSON type it has. -/
theorem transform_ok_of_chain (raw t g : PyStr) (entries : List (PyStr × JVal))
    (items : List JVal) (v : JVal)
    (hparse : json_loads raw = some (JVal.jarr (JVal.jobj entries :: items)))
    (htext : dictGet entries textKey = some (JVal.jstr t))
    (hfence : fenceSearch t = some g)
    (hinner : json_loads g = some v) :
    transform_text_to_json ⟨raw⟩ = Except.ok v := by
  unfold transform_text_to_json
  simp only [hparse, htext, hfence, hinner]

/-- Claim C5, counterexample: on a text whose fenced block holds the bare
scalar 5, the recovery chain succeeds with a non-dict value, which fails
the response model Dict[str, Any] declared on the route — the served
response is an internal server error (status 500), not the scalar the
claim promises as the response body. -/
theorem claim5_counterexample :
    transform_route ⟨pyOfString "[\x7b\"text\": \"```json 5 ```\"\x7d]"⟩ =
        Except.error RouteErr.responseValidation
      ∧ RouteErr.responseValidation.statusCode = 500
      ∧ Except.error RouteErr.responseValidation ≠ Except.ok (JVal.jint 5) :=
  ⟨rfl, rfl, fun h => Except.noConfusion h⟩

/-- Claim C5 as amended: on success of the recovery chain the route
returns the recovered JSON value directly as the response body when that
value is a JSON object — the declared response model imposes no further
constraint on the object's entries and nothing is wrapped — while a
recovered scalar or array fails the declared response model at
serialization and is surfaced as a server error. -/
theorem claim5_amended_response_model (raw t g : PyStr)
    (entries : List (PyStr × JVal)) (items : List JVal) (v : JVal)
    (hparse : json_loads raw = some (JVal.jarr (JVal.jobj entries :: items)))
    (htext : dictGet entries textKey = some (JVal.jstr t))
    (hfence : fenceSearch t = some g)
    (hinner : json_loads g = some v) :
    (isDictStrAny v = true → transform_route ⟨raw⟩ = Except.ok v)
    ∧ (isDictStrAny v = false →
        transform_route ⟨raw⟩ = Except.error RouteErr.responseValidation) := by
  have hok := transform_ok_of_chain raw t g entries items v hparse htext hfence hinner
  refine ⟨fun hd => ?_, fun hd => ?_⟩ <;>
    · unfold transform_route
      rw [hok]
      simp [hd]

/-- Claim C5 witness: a recovered JSON object passes through unwrapped. -/
theorem claim5_witness :
    transform_route
        ⟨pyOfString "[\x7b\"text\": \"```json \x7b\\\"k\\\": true\x7d ```\"\x7d]"⟩ =
      Except.ok (JVal.jobj [(pyOfString "k", JVal.jbool true)]) :=
  (claim5_amended_response_model
    (pyOfString "[\x7b\"text\": \"```json \x7b\\\"k\\\": true\x7d ```\"\x7d]")
    (pyOfString "```json \x7b\"k\": true\x7d ```") (pyOfString "\x7b\"k\": true\x7d")
    [(textKey, JVal.jstr (pyOfString "```json \x7b\"k\": true\x7d ```"))] []
    (JVal.jobj [(pyOfString "k", JVal.jbool true)])
    (by rfl) (by rfl) (by rfl) (by rfl)).1 (by rfl)

theorem isOpenAt_cons_ne (c : Nat) (t : PyStr) (hc : c ≠ 96) :
    isOpenAt (c :: t) = false := by
  unfold isOpenAt
  split
  · rename_i heq
    injection heq with h1 _
    subst h1
    simp [hc]
  · rfl

theorem hasTicks3_cons_ne (c : Nat) (t : PyStr) (hc : c ≠ 96) :
    hasTicks3 (c :: t) = false := by
  unfold hasTicks3
  split
  · rename_i heq
    injection heq with h1 _
    exact absurd h1 hc
  · rfl

theorem fenceSearch_cons_ne (c : Nat) (t : PyStr) (hc : c ≠ 96) :
    fenceSearch (c :: t) = fenceSearch t := by
  conv_lhs => unfold fenceSearch
  rw [isOpenAt_cons_ne c t hc]
  simp

/-- The search skips over any backtick-free segment. -/
theorem fenceSearch_append_no_tick (pre s : PyStr) (hpre : ∀ c ∈ pre, c ≠ 96) :
    fenceSearch (pre ++ s) = fenceSearch s := by
  induction pre with
  | nil => rfl
  | cons c pre ih =>
    rw [List.cons_append, fenceSearch_cons_ne c _ (hpre c (List.mem_cons_self c pre))]
    exact ih fun x hx => hpre x (List.mem_cons_of_mem c hx)

/-- The content before the first closing marker is the backtick-free
segment leading up to it. -/
theorem takeUntilTicks_append (u v : PyStr) (hu : ∀ c ∈ u, c ≠ 96) :
    takeUntilTicks (u ++ (ticks3 ++ v)) = some u := by
  induction u with
  | nil => rfl
  | cons c u ih =>
    have h1 := hasTicks3_cons_ne c (u ++ (ticks3 ++ v)) (hu c (List.mem_cons_self c u))
    have h2 := ih fun x hx => hu x (List.mem_cons_of_mem c hx)
    simp [takeUntilTicks, h1, h2]

theorem dropWhile_append_all (p : Nat → Bool) (u v : PyStr)
    (hu : ∀ c ∈ u, p c = true) :
    List.dropWhile p (u ++ v) = List.dropWhile p v := by
  induction u with
  | nil => rfl
  | cons c u ih =>
    rw [List.cons_append, List.dropWhile_cons_of_pos (hu c (List.mem_cons_self c u))]
    exact ih fun x hx => hu x (List.mem_cons_of_mem c hx)

theorem isPyWs_ne_96 (c : Nat) (h : isPyWs c = true) : c ≠ 96 := by
  intro hc
  subst hc
  simp [isPyWs] at h

/-- Group 1 of the fence search on a text of the shape
prefix, opening marker, whitespace, content, whitespace, closing marker,
anything: exactly the content, whatever comes after the closing marker. -/
theorem fenceSearch_first_block (pre ws1 c1 ws2 post : PyStr)
    (hpre : ∀ c ∈ pre, c ≠ 96)
    (hws1 : ∀ c ∈ ws1, isPyWs c = true)
    (hc1 : ∀ c ∈ c1, c ≠ 96)
    (hne : c1 ≠ [])
    (hlead : dropLeadWs c1 = c1)
    (htrail : dropTrailWs c1 = c1)
    (hws2 : ∀ c ∈ ws2, isPyWs c = true) :
    fenceSearch (pre ++ fenceOpenMark ++ ws1 ++ c1 ++ ws2 ++ ticks3 ++ post) = some c1 := by
  obtain ⟨c0, c1t, rfl⟩ : ∃ c0 c1t, c1 = c0 :: c1t := by
    cases c1 with
    | nil => exact absurd rfl hne
    | cons x xs => exact ⟨x, xs, rfl⟩
  have hc0 : ¬ isPyWs c0 = true := by
    have h0 := List.dropWhile_eq_self_iff.mp hlead (by simp)
    simpa using h0
  simp only [List.append_assoc]
  rw [fenceSearch_append_no_tick pre _ hpre]
  show fenceSearch (96 :: 96 :: 96 :: 106 :: 115 :: 111 :: 110 ::
    (ws1 ++ ((c0 :: c1t) ++ (ws2 ++ ([96, 96, 96] ++ post))))) = _
  conv_lhs => unfold fenceSearch
  rw [if_pos (by rfl)]
  simp only [List.drop_succ_cons, List.drop_zero]
  unfold dropLeadWs
  rw [dropWhile_append_all isPyWs ws1 _ hws1]
  rw [List.cons_append, List.dropWhile_cons_of_neg hc0]
  have hnt : ∀ c ∈ c0 :: (c1t ++ ws2), c ≠ 96 := by
    intro c hcmem
    rcases List.mem_cons.mp hcmem with h | h
    · exact h ▸ hc1 c0 (List.mem_cons_self c0 c1t)
    · rcases List.mem_append.mp h with h2 | h2
      · exact hc1 c (List.mem_cons_of_mem c0 h2)
      · exact isPyWs_ne_96 c (hws2 c h2)
  rw [show c0 :: (c1t ++ (ws2 ++ ([96, 96, 96] ++ post))) =
      (c0 :: (c1t ++ ws2)) ++ (ticks3 ++ post) by simp [ticks3]]
  rw [takeUntilTicks_append _ _ hnt]
  show some (dropTrailWs (c0 :: (c1t ++ ws2))) = _
  rw [show c0 :: (c1t ++ ws2) = (c0 :: c1t) ++ ws2 from (List.cons_append c0 c1t ws2).symm]
  unfold dropTrailWs
  rw [List.reverse_append]
  rw [dropWhile_append_all isPyWs ws2.reverse _ (by
    intro c hcmem
    exact hws2 c (List.mem_reverse.mp hcmem))]
  have htr : (c0 :: c1t).reverse.dropWhile isPyWs = (c0 :: c1t).reverse := by
    have h1 := htrail
    unfold dropTrailWs at h1
    have h2 := congrArg List.reverse h1
    rwa [List.reverse_reverse] at h2
  rw [htr, List.reverse_reverse]


/-- Claim C3: when the text field holds two fenced blocks, only the first
is honored — if its content is not valid JSON the operation fails with a
decode error and never falls back to the second block, even when that one
holds valid JSON. -/
theorem claim3_first_block_only (raw pre ws1 c1 ws2 mid c2 post : PyStr)
    (entries : List (PyStr × JVal)) (items : List JVal) (v2 : JVal)
    (hparse : json_loads raw = some (JVal.jarr (JVal.jobj entries :: items)))
    (htext : dictGet entries textKey = some (JVal.jstr
      (pre ++ fenceOpenMark ++ ws1 ++ c1 ++ ws2 ++ ticks3 ++
        (mid ++ fenceOpenMark ++ c2 ++ ticks3 ++ post))))
    (hpre : ∀ c ∈ pre, c ≠ 96)
    (hws1 : ∀ c ∈ ws1, isPyWs c = true)
    (hc1 : ∀ c ∈ c1, c ≠ 96)
    (hne : c1 ≠ [])
    (hlead : dropLeadWs c1 = c1)
    (htrail : dropTrailWs c1 = c1)
    (hws2 : ∀ c ∈ ws2, isPyWs c = true)
    (hbad : json_loads c1 = none)
    (hgood : json_loads (dropTrailWs (dropLeadWs c2)) = some v2) :
    transform_text_to_json ⟨raw⟩ = Except.error TransformErr.decodeErr := by
  have hfence := fenceSearch_first_block pre ws1 c1 ws2
    (mid ++ fenceOpenMark ++ c2 ++ ticks3 ++ post) hpre hws1 hc1 hne hlead htrail hws2
  unfold transform_text_to_json
  simp only [hparse, htext, hfence, hbad]

/-- Claim C3 witness: text "x ```json\nBAD\n``` y ```json\n2\n```" — the
first block fails to parse, the second holds the valid JSON 2. -/
theorem claim3_witness :
    transform_text_to_json
        ⟨pyOfString "[\x7b\"text\": \"x ```json\\nBAD\\n``` y ```json\\n2\\n```\"\x7d]"⟩ =
      Except.error TransformErr.decodeErr :=
  claim3_first_block_only
    (pyOfString "[\x7b\"text\": \"x ```json\\nBAD\\n``` y ```json\\n2\\n```\"\x7d]")
    [120, 32] [10] [66, 65, 68] [10] [32, 121, 32] [10, 50, 10] []
    [(textKey, JVal.jstr ([120, 32] ++ fenceOpenMark ++ [10] ++ [66, 65, 68] ++ [10] ++
      ticks3 ++ ([32, 121, 32] ++ fenceOpenMark ++ [10, 50, 10] ++ ticks3 ++ [])))]
    [] (JVal.jint 2)
    (by rfl) (by rfl) (by decide) (by decide) (by decide) (by decide) (by rfl) (by rfl)
    (by decide) (by rfl) (by rfl)

/-! ## Claims about the PDF extractor -/

/-- Claim C4, counterexample: the page separator the code writes is
"--- Página <n> ---", so on the two-page document extracting Hello and
World the text_content differs from the string the claim asserts. -/
theorem claim4_counterexample :
    (extract_pdf (some ⟨["Hello", "World"], none⟩) [] "doc.pdf" "").map
        DocumentResponse.text_content =
      Except.ok "--- Página 1 ---\nHello\n--- Página 2 ---\nWorld"
    ∧ "--- Página 1 ---\nHello\n--- Página 2 ---\nWorld" ≠
        "--- Page 1 ---\nHello\n--- Page 2 ---\nWorld" :=
  ⟨rfl, by decide⟩

/-- Claim C4 as amended: for a two-page document whose pages extract to
Hello and World — whatever the info dictionary, byte content, filename
and timestamp — the trimmed text_content is exactly the two
Página-separated segments in source order. -/
theorem claim4_amended_page_markers (info : Option (List (String × String)))
    (content : List Nat) (fn now : String) :
    (extract_pdf (some ⟨["Hello", "World"], info⟩) content fn now).map
        DocumentResponse.text_content =
      Except.ok "--- Página 1 ---\nHello\n--- Página 2 ---\nWorld" := rfl

/-- Claim C7: a PDF parsing successfully with zero pages yields
num_pages = 0 and an empty text_content. -/
theorem claim7_zero_pages (info : Option (List (String × String)))
    (content : List Nat) (fn now : String) :
    (extract_pdf (some ⟨[], info⟩) content fn now).map
        (fun r => (r.text_content, r.metadata.numPages?)) =
      Except.ok ("", some 0) := rfl

theorem hexDigitChar_lower (n : Nat) (h : n < 16) :
    isLowerHexChar (hexDigitChar n) = true := by
  have hall : ∀ m, m < 16 → isLowerHexChar (hexDigitChar m) = true := by decide
  exact hall n h

theorem wordBE_lt (w : Nat) : ∀ b ∈ wordBE w, b < 256 := by
  simp only [wordBE, List.mem_cons, List.not_mem_nil, or_false]
  rintro b (rfl | rfl | rfl | rfl) <;> exact Nat.mod_lt _ (by norm_num)

theorem sha256_bytes_lt (m : List Nat) : ∀ b ∈ sha256 m, b < 256 := by
  intro b hb
  simp only [sha256, List.mem_append] at hb
  rcases hb with ((((((h | h) | h) | h) | h) | h) | h) | h <;> exact wordBE_lt _ b h

theorem sha256_length (m : List Nat) : (sha256 m).length = 32 := by
  simp [sha256, wordBE]

theorem hexBytes_length (bs : List Nat) :
    ((bs.map hexByte).flatten).length = 2 * bs.length := by
  induction bs with
  | nil => rfl
  | cons b bs ih =>
    simp only [List.map_cons, List.flatten_cons, List.length_append, ih, hexByte,
      List.length_cons, List.length_nil, List.length_map]
    omega

theorem hexBytes_lower (bs : List Nat) (h : ∀ b ∈ bs, b < 256) :
    ((bs.map hexByte).flatten).all isLowerHexChar = true := by
  rw [List.all_eq_true]
  intro ch hch
  rw [List.mem_flatten] at hch
  obtain ⟨l, hl, hcl⟩ := hch
  rw [List.mem_map] at hl
  obtain ⟨b, hb, rfl⟩ := hl
  have hb256 := h b hb
  rcases List.mem_cons.mp hcl with h1 | h2
  · exact h1 ▸ hexDigitChar_lower _ (by omega)
  · rcases List.mem_cons.mp h2 with h3 | h4
    · exact h3 ▸ hexDigitChar_lower _ (by omega)
    · simp at h4

/-- Claim C6: the content hasher is a total function of the byte sequence
alone, equal to the lowercase hex SHA-256 digest (64 lowercase hex
characters), and the file_hash stamped by either extractor depends only on
the byte content, never on the supplied filename (or timestamp). -/
theorem claim6_content_hash (b : List Nat) (docP : PdfDocument) (docX : PptxDocument)
    (fn1 fn2 now1 now2 : String) :
    calculate_file_hash b = hexdigest (sha256 b)
    ∧ (calculate_file_hash b).length = 64
    ∧ (calculate_file_hash b).data.all isLowerHexChar = true
    ∧ (extract_pdf (some docP) b fn1 now1).map DocumentResponse.file_hash =
        (extract_pdf (some docP) b fn2 now2).map DocumentResponse.file_hash
    ∧ (extract_pptx (some docX) b fn1 now1).map DocumentResponse.file_hash =
        (extract_pptx (some docX) b fn2 now2).map DocumentResponse.file_hash := by
  refine ⟨rfl, ?_, ?_, rfl, rfl⟩
  · show (((sha256 b).map hexByte).flatten).length = 64
    rw [hexBytes_length, sha256_length]
  · show (((sha256 b).map hexByte).flatten).all isLowerHexChar = true
    exact hexBytes_lower _ (sha256_bytes_lt b)

/-- Claim C8: a zero-length upload whose filename passes the extension
check for either supported type is rejected as an empty file, whatever
either parse oracle would return — neither extractor is consulted. -/
theorem claim8_empty_upload_rejected (fn : String) (pdfParsed : Option PdfDocument)
    (pptxParsed : Option PptxDocument) (now : String)
    (hext : lastSuffixSeg (strLower fn) = "pdf" ∨ lastSuffixSeg (strLower fn) = "pptx") :
    extract_document fn [] pdfParsed pptxParsed now = Except.error ExtractErr.emptyFile := by
  unfold extract_document
  rcases hext with h | h <;> simp [h]

/-- Claim C8 witness. -/
theorem claim8_witness :
    extract_document "a.pdf" [] none none "" = Except.error ExtractErr.emptyFile :=
  claim8_empty_upload_rejected "a.pdf" none none "" (Or.inl (by rfl))

/-- Claim C9: the extension check lowercases the filename and keeps the
segment after the last dot; pdf dispatches to the PDF extractor, pptx to
the slide extractor, and anything else is rejected as unsupported before
the content plays any role. -/
theorem claim9_extension_dispatch (fn : String) (content : List Nat)
    (pdfParsed : Option PdfDocument) (pptxParsed : Option PptxDocument) (now : String) :
    (content ≠ [] → lastSuffixSeg (strLower fn) = "pdf" →
      extract_document fn content pdfParsed pptxParsed now =
        extract_pdf pdfParsed content fn now)
    ∧ (content ≠ [] → lastSuffixSeg (strLower fn) = "pptx" →
      extract_document fn content pdfParsed pptxParsed now =
        extract_pptx pptxParsed content fn now)
    ∧ (lastSuffixSeg (strLower fn) ∉ (["pdf", "pptx"] : List String) →
      extract_document fn content pdfParsed pptxParsed now =
        Except.error ExtractErr.unsupportedType) := by
  refine ⟨fun hc he => ?_, fun hc he => ?_, fun hn => ?_⟩ <;> unfold extract_document
  · simp [he, hc]
  · simp [he, hc]
  · simp [hn]

/-- Claim C9 witness: one dispatch of each kind, with case-mixed names. -/
theorem claim9_witness :
    extract_document "A.PDF" [37] none none "" = extract_pdf none [37] "A.PDF" ""
    ∧ extract_document "deck.PpTx" [37] none none "" = extract_pptx none [37] "deck.PpTx" ""
    ∧ extract_document "a.txt" [37] none none "" = Except.error ExtractErr.unsupportedType :=
  ⟨(claim9_extension_dispatch "A.PDF" [37] none none "").1 (by decide) (by rfl),
   (claim9_extension_dispatch "deck.PpTx" [37] none none "").2.1 (by decide) (by rfl),
   (claim9_extension_dispatch "a.txt" [37] none none "").2.2 (by decide)⟩

/-- Claim C10 (implicit behaviour): a dotless filename is accepted when
the whole lowercased name is pdf, dispatching to the PDF extractor, and
likewise when it is pptx, dispatching to the slide extractor; and the
extension check runs before the empty-content check, so an empty upload
with an unsupported extension receives the unsupported-type error, which
is distinct from the empty-file error. -/
theorem claim10_extension_quirks (fn : String) (content : List Nat)
    (pdfParsed : Option PdfDocument) (pptxParsed : Option PptxDocument) (now : String) :
    ((∀ ch ∈ fn.data, ch ≠ '.') → strLower fn = "pdf" → content ≠ [] →
      extract_document fn content pdfParsed pptxParsed now =
        extract_pdf pdfParsed content fn now)
    ∧ ((∀ ch ∈ fn.data, ch ≠ '.') → strLower fn = "pptx" → content ≠ [] →
      extract_document fn content pdfParsed pptxParsed now =
        extract_pptx pptxParsed content fn now)
    ∧ (lastSuffixSeg (strLower fn) ∉ (["pdf", "pptx"] : List String) →
      extract_document fn [] pdfParsed pptxParsed now =
        Except.error ExtractErr.unsupportedType)
    ∧ ExtractErr.unsupportedType ≠ ExtractErr.emptyFile := by
  refine ⟨fun hnd hl hc => ?_, fun hnd hl hc => ?_, fun hn => ?_, by decide⟩
  · have he : lastSuffixSeg (strLower fn) = "pdf" := by rw [hl]; rfl
    unfold extract_document
    simp [he, hc]
  · have he : lastSuffixSeg (strLower fn) = "pptx" := by rw [hl]; rfl
    unfold extract_document
    simp [he, hc]
  · unfold extract_document
    simp [hn]

/-- Claim C10 witness: the files named just pdf and just pptx, and an
empty upload with a txt extension. -/
theorem claim10_witness :
    extract_document "pdf" [1] none none "" = extract_pdf none [1] "pdf" ""
    ∧ extract_document "pptx" [1] none none "" = extract_pptx none [1] "pptx" ""
    ∧ extract_document "x.txt" [] none none "" = Except.error ExtractErr.unsupportedType :=
  ⟨(claim10_extension_quirks "pdf" [1] none none "").1 (by decide) (by rfl) (by decide),
   (claim10_extension_quirks "pptx" [1] none none "").2.1 (by decide) (by rfl) (by decide),
   (claim10_extension_quirks "x.txt" [] none none "").2.2.1 (by decide)⟩
